import Mathlib

/-!
Shallow embedding of the HTLC bridge core of the `movement` repository.

The authoritative HTLC semantics lives in the in-memory reference contracts
`SmartContractInitiator` (initiator_contract.rs) and `SmartContractCounterparty`
(counterparty_contract.rs).  Rust `HashMap`s are embedded as function maps
`key → Option value`; the newtype wrappers (`BridgeTransferId<H>`, `HashLock<H>`,
`Amount(u64)`, `TimeLock(u64)`, `HashLockPreImage(Vec<u8>)`) are flattened to
their payloads (`H`, `H`, `Nat`, `Nat`, `List Nat`).  A Rust method taking
`&mut self` is embedded as a state-passing function returning the next state.
-/

namespace Bridge

abbrev Amount := Nat

abbrev TimeLock := Nat

abbrev HashLockPreImage := List Nat

/-- A balance ledger, embedding Rust's `HashMap<A, Amount>`: `none` means the
address has no entry. -/
abbrev Ledger (A : Type) := A → Option Amount

/-- Initiator-side record, from `bridge_shared::types::BridgeTransferDetails`
as constructed in initiator_contract.rs lines 62-69. -/
structure BridgeTransferDetails (A H : Type) where
  bridge_transfer_id : H
  initiator_address : A
  recipient_address : A
  hash_lock : H
  time_lock : TimeLock
  amount : Amount
deriving DecidableEq

/-- Counterparty-side record, from `bridge_shared::types::LockDetails` as
constructed in counterparty_contract.rs line 46. -/
structure LockDetails (A H : Type) where
  bridge_transfer_id : H
  recipient_address : A
  hash_lock : H
  time_lock : TimeLock
  amount : Amount
deriving DecidableEq

/-- `SmartContractInitiatorError`, initiator_contract.rs lines 31-39. -/
inductive SmartContractInitiatorError where
  | InitiateTransferError
  | TransferNotFound
  | InvalidHashLockPreImage
deriving DecidableEq

/-- `SmartContractInitiator`, initiator_contract.rs lines 16-19: its only field
is the map `initiated_transfers`. -/
structure SmartContractInitiator (A H : Type) where
  initiated_transfers : H → Option (BridgeTransferDetails A H)

/-- `SmartContractInitiator::new`, initiator_contract.rs lines 46-48. -/
def SmartContractInitiator.new {A H : Type} : SmartContractInitiator A H :=
  ⟨fun _ => none⟩

/-- `SmartContractInitiator::initiate_bridge_transfer`, initiator_contract.rs
lines 50-71.  The source draws a fresh id from `BridgeTransferId::gen_unique_hash()`;
the generator is embedded as the explicit argument `genId` (an oracle for the
"distinct from all previously generated values" capability), and the `HashMap`
insert as a pointwise update. -/
def initiate_bridge_transfer {A H : Type} [DecidableEq H]
    (s : SmartContractInitiator A H) (genId : H) (initiator : A) (recipient : A)
    (amount : Amount) (time_lock : TimeLock) (hash_lock : H) :
    SmartContractInitiator A H :=
  ⟨fun id =>
    if id = genId then
      some ⟨genId, initiator, recipient, hash_lock, time_lock, amount⟩
    else
      s.initiated_transfers id⟩

/-- The outcome of `complete_bridge_transfer`: the Rust method mutates `self`
and the `accounts` map through `&mut` references and returns
`Result<(), SmartContractInitiatorError>`; flattened here into the final values
of both references plus an optional error (`none` = `Ok(())`). -/
structure CompleteOutcome (A H : Type) where
  state : SmartContractInitiator A H
  accounts : Ledger A
  error : Option SmartContractInitiatorError

/-- `SmartContractInitiator::complete_bridge_transfer`, initiator_contract.rs
lines 73-95.  The lookup failure returns `TransferNotFound`; the hash-lock
comparison that would return `InvalidHashLockPreImage` is commented out in the
source (lines 85-89), so `secret` is never inspected; the credit embeds
`accounts.entry(recipient).or_insert(Amount(0))` followed by `+= amount`. -/
def complete_bridge_transfer {A H : Type} [DecidableEq A] [DecidableEq H]
    (s : SmartContractInitiator A H) (accounts : Ledger A)
    (transfer_id : H) (secret : HashLockPreImage) : CompleteOutcome A H :=
  match s.initiated_transfers transfer_id with
  | none => ⟨s, accounts, some SmartContractInitiatorError.TransferNotFound⟩
  | some transfer =>
      ⟨s,
        fun a =>
          if a = transfer.recipient_address then
            some ((accounts transfer.recipient_address).getD 0 + transfer.amount)
          else
            accounts a,
        none⟩

/-- One `initiate_bridge_transfer` call's arguments, with the id the generator
returned for it recorded in `genId` (argument order as in the source). -/
structure InitiateCall (A H : Type) where
  genId : H
  initiator : A
  recipient : A
  amount : Amount
  time_lock : TimeLock
  hash_lock : H
deriving DecidableEq

/-- Run one recorded `initiate_bridge_transfer` call. -/
def runInitiate {A H : Type} [DecidableEq H]
    (s : SmartContractInitiator A H) (c : InitiateCall A H) :
    SmartContractInitiator A H :=
  initiate_bridge_transfer s c.genId c.initiator c.recipient c.amount c.time_lock c.hash_lock

/-- `noOverwrite s calls` holds when, replaying `calls` from `s`, every
insertion into `initiated_transfers` happens at a key that is absent at that
moment — i.e. no insert silently overwrites an existing record. -/
def noOverwrite {A H : Type} [DecidableEq H]
    (s : SmartContractInitiator A H) : List (InitiateCall A H) → Bool
  | [] => true
  | c :: cs => (s.initiated_transfers c.genId).isNone && noOverwrite (runInitiate s c) cs

/-- `SmartContractCounterparty`, counterparty_contract.rs lines 13-16. -/
structure SmartContractCounterparty (A H : Type) where
  locked_transfers : H → Option (LockDetails A H)

/-- `SmartContractCounterparty::new`, counterparty_contract.rs lines 31-33. -/
def SmartContractCounterparty.new {A H : Type} : SmartContractCounterparty A H :=
  ⟨fun _ => none⟩

/-- `SmartContractCounterparty::lock_bridge_transfer`, counterparty_contract.rs
lines 35-48: an unconditional `HashMap::insert` of a `LockDetails` record built
from the arguments. -/
def lock_bridge_transfer {A H : Type} [DecidableEq H]
    (s : SmartContractCounterparty A H) (bridge_transfer_id : H) (hash_lock : H)
    (time_lock : TimeLock) (recipient_address : A) (amount : Amount) :
    SmartContractCounterparty A H :=
  ⟨fun id =>
    if id = bridge_transfer_id then
      some ⟨bridge_transfer_id, recipient_address, hash_lock, time_lock, amount⟩
    else
      s.locked_transfers id⟩

/-- Modelled from the spec: the transaction retry engine
(`mcr_settlement_client::send_eth_transaction`, whose `send_transaction`,
`SendTransactionErrorRule`, `UnderPriced`, `InsufficentFunds` and `VerifyRule`
are only imported by src, not defined under it).  Per spec section 4.4 a rule
inspects a failed attempt's error and returns `Retryable(adjustment)` (bump the
gas price and retry), `Fatal`, or `NoOpinion` (defer to the next rule); the
adjustment is modelled as the amount added to the gas price. -/
inductive Verdict where
  | Retryable (adjustment : Nat)
  | Fatal
  | NoOpinion
deriving DecidableEq

/-- The submission error shapes the ethereum client's rule list distinguishes
(lib.rs lines 152-156); the source's spelling `InsufficentFunds` is kept. -/
inductive TxSubmissionError where
  | UnderPriced
  | InsufficentFunds
  | OtherError
deriving DecidableEq

/-- Modelled from the spec: evaluate the ordered rule list on a failed
attempt's error; the first non-`NoOpinion` verdict wins, and an empty or
all-`NoOpinion` list yields `NoOpinion` (which the engine surfaces as a
terminal error — spec section 4.4: "No rule matching falls through to a generic
terminal error"). -/
def evaluateRules {E : Type} : List (E → Verdict) → E → Verdict
  | [], _ => Verdict.NoOpinion
  | r :: rs, e =>
    match r e with
    | Verdict.NoOpinion => evaluateRules rs e
    | v => v

/-- Result of a retried submission: `ok k` is success after `k` retries;
the three failure forms record the terminal error and the retries performed. -/
inductive SendResult (E : Type) where
  | ok (retries : Nat)
  | fatal (e : E) (retries : Nat)
  | exhausted (e : E) (retries : Nat)
  | unclassified (e : E) (retries : Nat)
deriving DecidableEq

/-- Modelled from the spec: the bounded retry loop of section 4.4.  `attempt k g`
is the submission's outcome on the attempt numbered `k` (0 = first try) at gas
price `g`; on a failed attempt the rules are evaluated in order, `Fatal` stops
immediately, `Retryable` re-attempts with the gas adjustment applied (capped at
the gas ceiling) while the retry budget lasts, and budget exhaustion surfaces a
terminal error.  Recursion is structural on the budget. -/
def sendLoop {E : Type} (attempt : Nat → Nat → Except E Unit)
    (rules : List (E → Verdict)) (gasCeiling : Nat) :
    Nat → Nat → Nat → SendResult E
  | budget, k, gas =>
    match attempt k gas with
    | Except.ok _ => SendResult.ok k
    | Except.error e =>
      match evaluateRules rules e, budget with
      | Verdict.Fatal, _ => SendResult.fatal e k
      | Verdict.NoOpinion, _ => SendResult.unclassified e k
      | Verdict.Retryable _, 0 => SendResult.exhausted e k
      | Verdict.Retryable adj, b + 1 =>
          sendLoop attempt rules gasCeiling b (k + 1) (min (gas + adj) gasCeiling)

/-- Modelled from the spec: `send_transaction(call, rules, max_retries,
gas_limit)` — run the retry loop with a full budget, starting from the first
attempt at the base gas price. -/
def send_transaction {E : Type} (attempt : Nat → Nat → Except E Unit)
    (rules : List (E → Verdict)) (maxRetries : Nat) (gasCeiling : Nat) :
    SendResult E :=
  sendLoop attempt rules gasCeiling maxRetries 0 0

/-- Modelled from the spec: `SendTransactionErrorRule::<UnderPriced>` — an
underpriced submission is retryable with a gas bump (spec section 8:
`UnderPriced → Retryable`). -/
def underPricedRule : TxSubmissionError → Verdict
  | TxSubmissionError.UnderPriced => Verdict.Retryable 1
  | _ => Verdict.NoOpinion

/-- Modelled from the spec: `SendTransactionErrorRule::<InsufficentFunds>` —
insufficient funds is fatal (spec section 8: `InsufficientFunds → Fatal`). -/
def insufficentFundsRule : TxSubmissionError → Verdict
  | TxSubmissionError.InsufficentFunds => Verdict.Fatal
  | _ => Verdict.NoOpinion

/-- The rule list built by `EthClient::build_with_provider` (ethereum lib.rs
lines 152-156): `UnderPriced` first, `InsufficentFunds` second. -/
def send_transaction_error_rules : List (TxSubmissionError → Verdict) :=
  [underPricedRule, insufficentFundsRule]

/-- A call that fails with "underpriced" on its first two attempts and then
succeeds. -/
def underpricedTwiceCall : Nat → Nat → Except TxSubmissionError Unit :=
  fun k _ => if k < 2 then Except.error TxSubmissionError.UnderPriced else Except.ok ()

/-- A call that always fails with "insufficient funds". -/
def insufficentFundsCall : Nat → Nat → Except TxSubmissionError Unit :=
  fun _ _ => Except.error TxSubmissionError.InsufficentFunds

/-- Errors of the `BridgeContractInitiator` trait (`bridge_shared::bridge_contracts`,
imported by the ethereum client; the variants are those used in src and listed
in the spec's interface table). -/
inductive BridgeContractInitiatorError where
  | InitiateTransferError
  | TransferNotFound
  | InvalidHashLockPreImage
  | GetMappingStorageError
  | DecodeStorageError
deriving DecidableEq

/-- `EthClient::initiate_bridge_transfer`, ethereum lib.rs lines 183-207, as a
function of the submission's outcome: the source binds the result of
`send_transaction` to `_` (line 199) and returns `Ok(())` unconditionally, so
the returned value does not depend on `submission`. -/
def eth_initiate_bridge_transfer
    (submission : SendResult TxSubmissionError) :
    Except BridgeContractInitiatorError Unit :=
  Except.ok ()

/-- Modelled from the spec: the per-transfer lifecycle phase of section 3
(`created → {completed | refunded/aborted}`); src contains no refund/abort
implementation (the reference contracts lack the methods and the chain clients
only forward to on-chain code), so the expiry-gated refund/abort semantics of
sections 3, 4.1, 4.2 and 8 is modelled here. -/
inductive HtlcPhase where
  | pending
  | completed
  | refunded
  | aborted
deriving DecidableEq

/-- Modelled from the spec: the time-locked state refund/abort acts on — the
record's `time_lock` and its lifecycle phase. -/
structure TimedLockRecord where
  time_lock : TimeLock
  phase : HtlcPhase
deriving DecidableEq

/-- Modelled from the spec: failures of refund/abort — invoked before the time
lock elapsed, or on a transfer already in a terminal (or completed) phase. -/
inductive ExpiryError where
  | TimeLockNotExpired
  | NotPending
deriving DecidableEq

/-- Modelled from the spec: `refund_bridge_transfer(id)` (section 4.1) — valid
only strictly after `time_lock` has elapsed (section 3) on a transfer that was
neither completed nor already refunded/aborted; moves the record to the
terminal `refunded` phase. -/
def refund_bridge_transfer (now : Nat) (r : TimedLockRecord) :
    Except ExpiryError TimedLockRecord :=
  if r.phase ≠ HtlcPhase.pending then
    Except.error ExpiryError.NotPending
  else if now ≤ r.time_lock then
    Except.error ExpiryError.TimeLockNotExpired
  else
    Except.ok { r with phase := HtlcPhase.refunded }

/-- Modelled from the spec: `abort_bridge_transfer(id)` (section 4.2) — valid
only after the counterparty-side `time_lock` expiry, releasing the lock without
transferring funds; moves the record to the terminal `aborted` phase. -/
def abort_bridge_transfer (now : Nat) (r : TimedLockRecord) :
    Except ExpiryError TimedLockRecord :=
  if r.phase ≠ HtlcPhase.pending then
    Except.error ExpiryError.NotPending
  else if now ≤ r.time_lock then
    Except.error ExpiryError.TimeLockNotExpired
  else
    Except.ok { r with phase := HtlcPhase.aborted }

/-- A concrete initiated transfer: id 1, initiator 10, recipient 20,
hash lock 7, time lock 100, amount 500. -/
def exampleDetails : BridgeTransferDetails Nat Nat :=
  ⟨1, 10, 20, 7, 100, 500⟩

/-- A concrete initiator state holding exactly `exampleDetails` under id 1. -/
def exampleState : SmartContractInitiator Nat Nat :=
  ⟨fun id => if id = 1 then some exampleDetails else none⟩

/-- The empty ledger. -/
def emptyLedger : Ledger Nat := fun _ => none

/-- A concrete counterparty state with locks under ids 3 and 4. -/
def exampleCounterparty : SmartContractCounterparty Nat Nat :=
  ⟨fun id =>
    if id = 3 then some ⟨3, 21, 8, 50, 111⟩
    else if id = 4 then some ⟨4, 22, 9, 60, 222⟩
    else none⟩

/-- Three recorded initiate calls whose generated ids 1, 2, 3 are pairwise
distinct. -/
def exampleCalls : List (InitiateCall Nat Nat) :=
  [⟨1, 10, 20, 500, 100, 7⟩, ⟨2, 11, 21, 600, 200, 8⟩, ⟨3, 12, 22, 700, 300, 9⟩]

end Bridge

namespace Bridge

/-- C1: the claim says a presented preimage whose hash differs from the stored
`hash_lock` makes `complete_bridge_transfer` fail with `InvalidHashLockPreImage`
without touching the ledger; in the source the hash-lock comparison is commented
out, so on the concrete state holding a transfer with hash lock 7 the call
succeeds and credits the recipient for every presented preimage — in particular
for any preimage whose hash (under any hash function) differs from 7. -/
theorem complete_skips_hash_lock_check (secret : HashLockPreImage) :
    (complete_bridge_transfer exampleState emptyLedger 1 secret).error = none ∧
    (complete_bridge_transfer exampleState emptyLedger 1 secret).accounts 20 = some 500 := by
  constructor <;> rfl

/-- C2: when no record for `transfer_id` is present, `complete_bridge_transfer`
fails with `TransferNotFound` and leaves both the `initiated_transfers` map and
the balance ledger unchanged. -/
theorem complete_transfer_not_found {A H : Type} [DecidableEq A] [DecidableEq H]
    (s : SmartContractInitiator A H) (accounts : Ledger A) (transfer_id : H)
    (secret : HashLockPreImage)
    (h : s.initiated_transfers transfer_id = none) :
    complete_bridge_transfer s accounts transfer_id secret =
      ⟨s, accounts, some SmartContractInitiatorError.TransferNotFound⟩ := by
  unfold complete_bridge_transfer
  rw [h]

theorem complete_transfer_not_found_witness :
    complete_bridge_transfer exampleState emptyLedger 5 [1] =
      ⟨exampleState, emptyLedger, some SmartContractInitiatorError.TransferNotFound⟩ :=
  complete_transfer_not_found exampleState emptyLedger 5 [1] (by decide)

/-- C3: after a successful `initiate_bridge_transfer` of amount `amount`, a
`complete_bridge_transfer` of that transfer succeeds, the recipient's ledger
balance grows by exactly `amount` (an absent recipient counts as balance 0),
and every other address's balance is unchanged. -/
theorem initiate_then_complete_credits_recipient {A H : Type} [DecidableEq A] [DecidableEq H]
    (s : SmartContractInitiator A H) (accounts : Ledger A)
    (genId : H) (initiator recipient : A) (amount : Amount)
    (time_lock : TimeLock) (hash_lock : H) (secret : HashLockPreImage) :
    (complete_bridge_transfer
      (initiate_bridge_transfer s genId initiator recipient amount time_lock hash_lock)
      accounts genId secret).error = none ∧
    (complete_bridge_transfer
      (initiate_bridge_transfer s genId initiator recipient amount time_lock hash_lock)
      accounts genId secret).accounts recipient =
        some ((accounts recipient).getD 0 + amount) ∧
    ∀ a, a ≠ recipient →
      (complete_bridge_transfer
        (initiate_bridge_transfer s genId initiator recipient amount time_lock hash_lock)
        accounts genId secret).accounts a = accounts a := by
  refine ⟨?_, ?_, ?_⟩
  · simp [initiate_bridge_transfer, complete_bridge_transfer]
  · simp [initiate_bridge_transfer, complete_bridge_transfer]
  · intro a ha
    simp [initiate_bridge_transfer, complete_bridge_transfer, ha]

theorem initiate_then_complete_credits_recipient_witness :
    (complete_bridge_transfer
      (initiate_bridge_transfer exampleState 2 30 40 600 100 9)
      emptyLedger 2 [5]).error = none ∧
    (complete_bridge_transfer
      (initiate_bridge_transfer exampleState 2 30 40 600 100 9)
      emptyLedger 2 [5]).accounts 40 = some 600 ∧
    (complete_bridge_transfer
      (initiate_bridge_transfer exampleState 2 30 40 600 100 9)
      emptyLedger 2 [5]).accounts 20 = emptyLedger 20 :=
  ⟨(initiate_then_complete_credits_recipient exampleState emptyLedger 2 30 40 600 100 9 [5]).1,
   (initiate_then_complete_credits_recipient exampleState emptyLedger 2 30 40 600 100 9 [5]).2.1,
   (initiate_then_complete_credits_recipient exampleState emptyLedger 2 30 40 600 100 9 [5]).2.2
     20 (by decide)⟩

theorem noOverwrite_of_fresh {A H : Type} [DecidableEq H]
    (calls : List (InitiateCall A H)) :
    ∀ s : SmartContractInitiator A H,
      (∀ c ∈ calls, s.initiated_transfers c.genId = none) →
      (calls.map InitiateCall.genId).Nodup →
      noOverwrite s calls = true := by
  induction calls with
  | nil => intro s _ _; rfl
  | cons c cs ih =>
    intro s hdom hnodup
    have hhead : s.initiated_transfers c.genId = none :=
      hdom c (List.mem_cons_self c cs)
    rw [List.map_cons, List.nodup_cons] at hnodup
    have hdom2 : ∀ c2 ∈ cs, (runInitiate s c).initiated_transfers c2.genId = none := by
      intro c2 hc2
      have hne : c2.genId ≠ c.genId := by
        intro heq
        exact hnodup.1 (heq ▸ List.mem_map_of_mem InitiateCall.genId hc2)
      have habs := hdom c2 (List.mem_cons_of_mem c hc2)
      simp [runInitiate, initiate_bridge_transfer, hne, habs]
    unfold noOverwrite
    rw [hhead]
    simpa using ih (runInitiate s c) hdom2 hnodup.2

/-- C4: along any sequence of `initiate_bridge_transfer` calls starting from
`SmartContractInitiator::new`, under the `gen_unique_hash` capability's
guarantee that the generated ids are distinct from all previously generated
ones, the ids are pairwise distinct and no `HashMap` insert into
`initiated_transfers` overwrites a record stored under an existing id. -/
theorem unique_ids_no_overwrite {A H : Type} [DecidableEq H]
    (calls : List (InitiateCall A H))
    (hfresh : (calls.map InitiateCall.genId).Nodup) :
    (calls.map InitiateCall.genId).Pairwise (fun x y => x ≠ y) ∧
    noOverwrite SmartContractInitiator.new calls = true := by
  refine ⟨hfresh, ?_⟩
  exact noOverwrite_of_fresh calls SmartContractInitiator.new (fun c _ => rfl) hfresh

theorem unique_ids_no_overwrite_witness :
    (exampleCalls.map InitiateCall.genId).Pairwise (fun x y => x ≠ y) ∧
    noOverwrite SmartContractInitiator.new exampleCalls = true :=
  unique_ids_no_overwrite exampleCalls (by decide)

/-- C5: the claim says `initiate_bridge_transfer` returns an error exactly when
the underlying submission failed terminally; in the source
`EthClient::initiate_bridge_transfer` discards the result of `send_transaction`
(`let _ = ...`) and returns `Ok(())`, so it succeeds even when the submission
failed fatally (insufficient funds) or by retry exhaustion. -/
theorem initiate_swallows_submission_failure :
    eth_initiate_bridge_transfer
        (SendResult.fatal TxSubmissionError.InsufficentFunds 0) = Except.ok () ∧
    eth_initiate_bridge_transfer
        (SendResult.exhausted TxSubmissionError.UnderPriced 5) = Except.ok () :=
  ⟨rfl, rfl⟩

/-- C6: `lock_bridge_transfer` stores under `bridge_transfer_id` a `LockDetails`
record with exactly the given fields — replacing whatever record was there
before (the reference implementation's idempotent-replace policy) — and leaves
the record under every other id unchanged. -/
theorem lock_stores_lock_details {A H : Type} [DecidableEq H]
    (s : SmartContractCounterparty A H) (bridge_transfer_id : H) (hash_lock : H)
    (time_lock : TimeLock) (recipient_address : A) (amount : Amount) :
    (lock_bridge_transfer s bridge_transfer_id hash_lock time_lock
        recipient_address amount).locked_transfers bridge_transfer_id =
      some ⟨bridge_transfer_id, recipient_address, hash_lock, time_lock, amount⟩ ∧
    ∀ id2, id2 ≠ bridge_transfer_id →
      (lock_bridge_transfer s bridge_transfer_id hash_lock time_lock
          recipient_address amount).locked_transfers id2 = s.locked_transfers id2 := by
  constructor
  · simp [lock_bridge_transfer]
  · intro id2 h2
    simp [lock_bridge_transfer, h2]

theorem lock_stores_lock_details_witness :
    (lock_bridge_transfer exampleCounterparty 3 77 90 23 444).locked_transfers 3 =
      some ⟨3, 23, 77, 90, 444⟩ ∧
    (lock_bridge_transfer exampleCounterparty 3 77 90 23 444).locked_transfers 4 =
      some ⟨4, 22, 9, 60, 222⟩ :=
  ⟨(lock_stores_lock_details exampleCounterparty 3 77 90 23 444).1,
   (lock_stores_lock_details exampleCounterparty 3 77 90 23 444).2 4 (by decide)⟩

/-- C7: with the rule list `[UnderPriced → Retryable, InsufficentFunds → Fatal]`
evaluated in order with the first non-`NoOpinion` verdict winning, a call that
fails with "underpriced" twice and then succeeds performs exactly 2 retries and
returns success, and a call failing with "insufficient funds" performs 0
retries and fails immediately (budget and gas ceiling as in the source's
defaults, `MAX_RETRIES = 5` and `DEFAULT_GAS_LIMIT = 10_000_000_000`). -/
theorem retry_classification :
    send_transaction underpricedTwiceCall send_transaction_error_rules 5 10000000000 =
      SendResult.ok 2 ∧
    send_transaction insufficentFundsCall send_transaction_error_rules 5 10000000000 =
      SendResult.fatal TxSubmissionError.InsufficentFunds 0 := by
  constructor <;> rfl

/-- C8: refund on the initiator side and abort on the counterparty side fail
whenever invoked before the transfer's `time_lock` has elapsed, and, on a
transfer that was never completed, succeed exactly once after it has elapsed —
a second refund/abort of the resulting record fails. -/
theorem expiry_gating (now : Nat) (r : TimedLockRecord)
    (hpend : r.phase = HtlcPhase.pending) :
    (now ≤ r.time_lock →
      refund_bridge_transfer now r = Except.error ExpiryError.TimeLockNotExpired ∧
      abort_bridge_transfer now r = Except.error ExpiryError.TimeLockNotExpired) ∧
    (r.time_lock < now →
      refund_bridge_transfer now r = Except.ok { r with phase := HtlcPhase.refunded } ∧
      abort_bridge_transfer now r = Except.ok { r with phase := HtlcPhase.aborted } ∧
      (∀ later : Nat,
        refund_bridge_transfer later { r with phase := HtlcPhase.refunded } =
          Except.error ExpiryError.NotPending) ∧
      (∀ later : Nat,
        abort_bridge_transfer later { r with phase := HtlcPhase.aborted } =
          Except.error ExpiryError.NotPending)) := by
  constructor
  · intro hle
    constructor <;> simp [refund_bridge_transfer, abort_bridge_transfer, hpend, hle]
  · intro hlt
    have hnle : ¬ now ≤ r.time_lock := Nat.not_le.mpr hlt
    refine ⟨?_, ?_, ?_, ?_⟩
    · simp [refund_bridge_transfer, hpend, hnle]
    · simp [abort_bridge_transfer, hpend, hnle]
    · intro later; simp [refund_bridge_transfer]
    · intro later; simp [abort_bridge_transfer]

theorem expiry_gating_witness :
    refund_bridge_transfer 50 ⟨100, HtlcPhase.pending⟩ =
      Except.error ExpiryError.TimeLockNotExpired ∧
    refund_bridge_transfer 101 ⟨100, HtlcPhase.pending⟩ =
      Except.ok ⟨100, HtlcPhase.refunded⟩ ∧
    abort_bridge_transfer 101 ⟨100, HtlcPhase.pending⟩ =
      Except.ok ⟨100, HtlcPhase.aborted⟩ ∧
    refund_bridge_transfer 102 ⟨100, HtlcPhase.refunded⟩ =
      Except.error ExpiryError.NotPending :=
  ⟨((expiry_gating 50 ⟨100, HtlcPhase.pending⟩ rfl).1 (by decide)).1,
   ((expiry_gating 101 ⟨100, HtlcPhase.pending⟩ rfl).2 (by decide)).1,
   ((expiry_gating 101 ⟨100, HtlcPhase.pending⟩ rfl).2 (by decide)).2.1,
   ((expiry_gating 101 ⟨100, HtlcPhase.pending⟩ rfl).2 (by decide)).2.2.1 102⟩

/-- C9: `complete_bridge_transfer` never mutates the `initiated_transfers`
map — whether it succeeds or fails, the state component of the outcome is the
input state, so the record created by `initiate_bridge_transfer` is read-only
afterwards. -/
theorem complete_preserves_initiated_transfers {A H : Type} [DecidableEq A] [DecidableEq H]
    (s : SmartContractInitiator A H) (accounts : Ledger A) (transfer_id : H)
    (secret : HashLockPreImage) :
    (complete_bridge_transfer s accounts transfer_id secret).state = s := by
  unfold complete_bridge_transfer
  cases s.initiated_transfers transfer_id <;> rfl

/-- C10: completion is not one-shot in the source: for any id present in
`initiated_transfers`, two successive `complete_bridge_transfer` calls with
that id both succeed and together credit the recipient with twice the record's
amount (an absent recipient starts from balance 0 via `or_insert(Amount(0))`). -/
theorem complete_twice_credits_twice {A H : Type} [DecidableEq A] [DecidableEq H]
    (s : SmartContractInitiator A H) (accounts : Ledger A) (transfer_id : H)
    (secret1 secret2 : HashLockPreImage) (t : BridgeTransferDetails A H)
    (h : s.initiated_transfers transfer_id = some t) :
    (complete_bridge_transfer s accounts transfer_id secret1).error = none ∧
    (complete_bridge_transfer
      (complete_bridge_transfer s accounts transfer_id secret1).state
      (complete_bridge_transfer s accounts transfer_id secret1).accounts
      transfer_id secret2).error = none ∧
    (complete_bridge_transfer
      (complete_bridge_transfer s accounts transfer_id secret1).state
      (complete_bridge_transfer s accounts transfer_id secret1).accounts
      transfer_id secret2).accounts t.recipient_address =
        some ((accounts t.recipient_address).getD 0 + t.amount + t.amount) := by
  refine ⟨?_, ?_, ?_⟩ <;> simp [complete_bridge_transfer, h]

theorem complete_twice_credits_twice_witness :
    (complete_bridge_transfer
      (complete_bridge_transfer exampleState emptyLedger 1 [1]).state
      (complete_bridge_transfer exampleState emptyLedger 1 [1]).accounts
      1 [2]).accounts 20 = some 1000 :=
  (complete_twice_credits_twice exampleState emptyLedger 1 [1] [2]
    exampleDetails (by decide)).2.2

end Bridge
